import Mathlib

/-!
Verification development for the Telegram channel-parser repository
(parser_telethon.py / parser_pyrogram.py and the two media downloader
modules).  Python strings are shallowly embedded as lists of code points
(`Str`); the transport client (download / send calls, file system answers)
is modelled as an explicit oracle record, so that every code path of the
embedded functions is a pure, executable Lean function translated from the
Python source.
-/

set_option maxRecDepth 10000

namespace TgParser

/-- Python `str` values, embedded as lists of code points. -/
abbrev Str := List Char

/-- Literal helper: the code points of a Lean string literal. -/
def str (s : String) : Str := s.data

/-- Code points stripped by Python's `str.strip()` (the ASCII whitespace
subset, which is all that the repository's data ever contains). -/
def pyIsSpace (c : Char) : Bool :=
  c = ' ' || c = '\t' || c = '\n' || c = '\r' || c = '\x0b' || c = '\x0c'

/-- Python `s.strip()`: drop whitespace from both ends. -/
def stripStr (s : Str) : Str :=
  ((s.dropWhile pyIsSpace).reverse.dropWhile pyIsSpace).reverse

/-- Python `s.lower()` (ASCII case mapping, which covers the repository's
bucket keys and configuration strings). -/
def lowerStr (s : Str) : Str := s.map Char.toLower

/-- `_merge`'s loop (identical in parser_telethon.py and parser_pyrogram.py):
iterate over `a + b`, keep an item when its trimmed lowercase key is
non-empty and unseen, appending the *stripped* item.  The Python `set` of
seen keys is modelled as the list of keys in insertion order (membership is
all that is used). -/
def mergeGo : List Str → List Str → List Str → List Str
  | _, out, [] => out
  | seen, out, item :: rest =>
    if lowerStr (stripStr item) ≠ [] ∧ lowerStr (stripStr item) ∉ seen then
      mergeGo (seen ++ [lowerStr (stripStr item)]) (out ++ [stripStr item]) rest
    else
      mergeGo seen out rest

/-- `_merge(a, b)` from both parser modules. -/
def merge (a b : List Str) : List Str := mergeGo [] [] (a ++ b)

/-- Order-preserving first-wins deduplication of already-stripped items by
their lowercase value; used to phrase the specification-level description
of `_merge`. -/
def dedupF : List Str → List Str
  | [] => []
  | x :: xs => x :: dedupF (xs.filter (fun y => lowerStr y != lowerStr x))
termination_by l => l.length
decreasing_by
  simp only [List.length_cons]
  exact Nat.lt_succ_of_le (List.length_filter_le _ _)

/-- Order-preserving first-wins deduplication by case-insensitive trimmed
key, keeping each surviving item exactly as it occurs; this is the literal
reading of the claim "concatenate, deduplicate by case-insensitive trimmed
value, first occurrence wins and keeps its original casing". -/
def dedupK : List Str → List Str
  | [] => []
  | x :: xs =>
    x :: dedupK (xs.filter (fun y => lowerStr (stripStr y) != lowerStr (stripStr x)))
termination_by l => l.length
decreasing_by
  simp only [List.length_cons]
  exact Nat.lt_succ_of_le (List.length_filter_le _ _)

/-- The claim's literal merge: concatenation deduplicated by key, entries
kept verbatim. -/
def mergeClaimed (a b : List Str) : List Str := dedupK (a ++ b)

/-- The amended merge description: concatenate, trim every entry, drop
entries that are empty after trimming, then deduplicate by lowercase value
keeping the first occurrence. -/
def mergeAmended (a b : List Str) : List Str :=
  dedupF (((a ++ b).map stripStr).filter (fun s => s != []))

-- ───────────────────────── string lemmas ─────────────────────────

lemma dropWhile_head_false {p : Char → Bool} {l : Str} {c : Char} {t : Str}
    (h : l.dropWhile p = c :: t) : p c = false := by
  have := List.head?_dropWhile_not p l
  rw [h] at this
  simpa using this

lemma dropWhile_getLast? (p : Char → Bool) (l : Str) (h : l.dropWhile p ≠ []) :
    (l.dropWhile p).getLast? = l.getLast? := by
  induction l with
  | nil => simp at h
  | cons x xs ih =>
    by_cases hp : p x
    · rw [List.dropWhile_cons_of_pos hp] at h ⊢
      rw [ih h]
      cases xs with
      | nil => simp [List.dropWhile] at h
      | cons y ys => rw [List.getLast?_cons_cons]
    · rw [List.dropWhile_cons_of_neg hp]

lemma dropWhile_dropWhile (p : Char → Bool) (l : Str) :
    List.dropWhile p (List.dropWhile p l) = List.dropWhile p l := by
  induction l with
  | nil => simp
  | cons x xs ih =>
    by_cases hp : p x
    · rw [List.dropWhile_cons_of_pos hp]; exact ih
    · rw [List.dropWhile_cons_of_neg hp, List.dropWhile_cons_of_neg hp]

lemma stripStr_head_false {s : Str} {c : Char} {t : Str} (h : stripStr s = c :: t) :
    pyIsSpace c = false := by
  unfold stripStr at h
  have hr : (s.dropWhile pyIsSpace).reverse.dropWhile pyIsSpace ≠ [] := by
    intro he
    rw [he] at h
    simp at h
  have h2 := dropWhile_getLast? pyIsSpace (s.dropWhile pyIsSpace).reverse hr
  rw [List.getLast?_reverse] at h2
  have h3 : ((s.dropWhile pyIsSpace).reverse.dropWhile pyIsSpace).reverse.head? = some c := by
    rw [h]; rfl
  rw [List.head?_reverse, h2] at h3
  cases hm : s.dropWhile pyIsSpace with
  | nil => rw [hm] at h3; simp at h3
  | cons c0 t0 =>
    rw [hm] at h3
    simp only [List.head?_cons, Option.some.injEq] at h3
    rw [← h3]
    exact dropWhile_head_false hm

lemma stripStr_idem (s : Str) : stripStr (stripStr s) = stripStr s := by
  have h1 : (stripStr s).dropWhile pyIsSpace = stripStr s := by
    cases hc : stripStr s with
    | nil => simp
    | cons c t =>
      rw [List.dropWhile_cons_of_neg]
      simp [stripStr_head_false hc]
  show ((((stripStr s).dropWhile pyIsSpace).reverse).dropWhile pyIsSpace).reverse = stripStr s
  rw [h1]
  have h2 : (stripStr s).reverse.dropWhile pyIsSpace = (stripStr s).reverse := by
    unfold stripStr
    rw [List.reverse_reverse]
    exact dropWhile_dropWhile _ _
  rw [h2, List.reverse_reverse]

lemma lowerStr_eq_nil_iff {s : Str} : lowerStr s = [] ↔ s = [] := by
  simp [lowerStr]

-- ───────────────────────── merge lemmas ─────────────────────────

lemma mergeGo_eq_dedupF (items : List Str) : ∀ (seen out : List Str),
    mergeGo seen out items =
      out ++ dedupF ((items.map stripStr).filter
        (fun s => decide (s ≠ [] ∧ lowerStr s ∉ seen))) := by
  induction items with
  | nil =>
    intro seen out
    simp [mergeGo, dedupF]
  | cons item rest ih =>
    intro seen out
    rw [mergeGo]
    by_cases hk : lowerStr (stripStr item) ≠ [] ∧ lowerStr (stripStr item) ∉ seen
    · rw [if_pos hk, ih]
      have hs : stripStr item ≠ [] := by
        intro he
        exact hk.1 (by rw [he]; rfl)
      have hkeep : decide (stripStr item ≠ [] ∧ lowerStr (stripStr item) ∉ seen) = true := by
        simp [hs, hk.2]
      simp only [List.map_cons, List.filter_cons, hkeep, if_pos]
      rw [dedupF, List.filter_filter]
      rw [List.append_assoc, List.singleton_append]
      congr 2
      apply congrArg
      apply List.filter_congr
      intro y hy
      by_cases h1 : y = [] <;> by_cases h2 : lowerStr y ∈ seen <;>
        by_cases h3 : lowerStr y = lowerStr (stripStr item) <;>
        simp [h1, h2, h3, List.mem_append]
    · rw [if_neg hk, ih]
      have hdrop : decide (stripStr item ≠ [] ∧ lowerStr (stripStr item) ∉ seen) = false := by
        simp only [decide_eq_false_iff_not]
        intro hcon
        exact hk ⟨fun he => hcon.1 (lowerStr_eq_nil_iff.mp he), hcon.2⟩
      simp only [List.map_cons, List.filter_cons, hdrop]
      simp

lemma mergeGo_inv (items : List Str) : ∀ (seen out : List Str),
    (∀ x ∈ out, stripStr x = x ∧ lowerStr x ≠ [] ∧ lowerStr x ∈ seen) →
    List.Pairwise (fun x y => lowerStr x ≠ lowerStr y) out →
    (∀ x ∈ mergeGo seen out items, stripStr x = x ∧ lowerStr x ≠ []) ∧
    List.Pairwise (fun x y => lowerStr x ≠ lowerStr y) (mergeGo seen out items) := by
  induction items with
  | nil =>
    intro seen out h1 h2
    rw [mergeGo]
    exact ⟨fun x hx => ⟨(h1 x hx).1, (h1 x hx).2.1⟩, h2⟩
  | cons item rest ih =>
    intro seen out h1 h2
    rw [mergeGo]
    by_cases hk : lowerStr (stripStr item) ≠ [] ∧ lowerStr (stripStr item) ∉ seen
    · rw [if_pos hk]
      apply ih
      · intro x hx
        rcases List.mem_append.mp hx with hx | hx
        · obtain ⟨ha, hb, hc⟩ := h1 x hx
          exact ⟨ha, hb, List.mem_append.mpr (Or.inl hc)⟩
        · rw [List.mem_singleton] at hx
          subst hx
          exact ⟨stripStr_idem item, hk.1,
            List.mem_append.mpr (Or.inr (List.mem_singleton.mpr rfl))⟩
      · rw [List.pairwise_append]
        refine ⟨h2, List.pairwise_singleton _ _, ?_⟩
        intro a ha b hb
        rw [List.mem_singleton] at hb
        subst hb
        intro he
        exact hk.2 (he ▸ (h1 a ha).2.2)
    · rw [if_neg hk]
      exact ih seen out h1 h2

lemma mergeGo_fixed (l : List Str) : ∀ (seen out : List Str),
    (∀ x ∈ l, stripStr x = x ∧ lowerStr x ≠ [] ∧ lowerStr x ∉ seen) →
    List.Pairwise (fun x y => lowerStr x ≠ lowerStr y) l →
    mergeGo seen out l = out ++ l := by
  induction l with
  | nil =>
    intro seen out _ _
    rw [mergeGo]
    simp
  | cons x xs ih =>
    intro seen out h1 h2
    obtain ⟨hstrip, hne, hnin⟩ := h1 x (List.mem_cons_self _ _)
    rw [mergeGo, hstrip, if_pos ⟨hne, hnin⟩]
    rw [List.pairwise_cons] at h2
    rw [ih (seen ++ [lowerStr x]) (out ++ [x]) ?hh h2.2]
    · simp
    case hh =>
      intro y hy
      obtain ⟨ha, hb, hc⟩ := h1 y (List.mem_cons_of_mem _ hy)
      refine ⟨ha, hb, ?_⟩
      intro hmem
      rcases List.mem_append.mp hmem with hm | hm
      · exact hc hm
      · rw [List.mem_singleton] at hm
        exact h2.1 y hy hm.symm

-- ───────────────────────── claims C6 and C7 ─────────────────────────

/-- C6 counterexample: `_merge` does not equal the plain key-deduplication
of `a ++ b` keeping entries verbatim — it also trims the surviving entry.
On input `a = [" A "]`, `b = []` the code returns `["A"]` while the claimed
description returns `[" A "]`. -/
theorem c6_merge_strips_counterexample :
    merge [str " A "] [] ≠ mergeClaimed [str " A "] [] := by
  have h1 : merge [str " A "] [] = [str "A"] := by decide
  have h2 : mergeClaimed [str " A "] [] = [str " A "] := by
    rw [mergeClaimed]
    simp [dedupK]
  rw [h1, h2]
  decide

/-- C6 (amended): for all input lists `a` and `b`, `_merge(a, b)` equals the
concatenation of `a` followed by `b` with every entry trimmed of
leading/trailing whitespace, entries that are empty after trimming dropped,
and the rest deduplicated by case-insensitive value where the first
occurrence wins (casing preserved) and relative order is preserved. -/
theorem c6_merge_amended_spec (a b : List Str) : merge a b = mergeAmended a b := by
  rw [merge, mergeGo_eq_dedupF, mergeAmended]
  simp only [List.nil_append]
  apply congrArg
  apply List.filter_congr
  intro y hy
  by_cases h : y = [] <;> simp [h]

/-- C7: `_merge` is idempotent under re-merging its own output
(`merge (merge a b) [] = merge a b`), and its output never contains two
entries whose trimmed lowercase keys coincide — i.e. no two entries differ
only by letter case or leading/trailing whitespace. -/
theorem c7_merge_idempotent_no_case_dups (a b : List Str) :
    merge (merge a b) [] = merge a b ∧
    List.Pairwise (fun x y => lowerStr (stripStr x) ≠ lowerStr (stripStr y)) (merge a b) := by
  have hinv := mergeGo_inv (a ++ b) [] [] (by simp) List.Pairwise.nil
  constructor
  · show mergeGo [] [] (merge a b ++ []) = merge a b
    rw [List.append_nil,
      mergeGo_fixed (merge a b) [] []
        (fun x hx => ⟨(hinv.1 x hx).1, (hinv.1 x hx).2, List.not_mem_nil _⟩) hinv.2]
    simp
  · refine List.Pairwise.imp_of_mem ?_ hinv.2
    intro x y hx hy hR
    rw [(hinv.1 x hx).1, (hinv.1 y hy).1]
    exact hR

-- ───────────────────────── media descriptors (telethon) ─────────────────────────

/-- Decimal rendering of a message id, as Python's f-string interpolation
produces it. -/
def natStr (n : Nat) : Str := (Nat.repr n).data

/-- Python `needle in haystack` prefix test helper. -/
def strStartsWith : Str → Str → Bool
  | [], _ => true
  | _ :: _, [] => false
  | c :: cs, d :: ds => c = d && strStartsWith cs ds

/-- Python `needle in haystack` substring test. -/
def strContains : Str → Str → Bool
  | [], n => strStartsWith n []
  | c :: t, n => strStartsWith n (c :: t) || strContains t n

/-- Python `x or d` on an optional string (`None` and `""` are falsy). -/
def orStr (o : Option Str) (d : Str) : Str :=
  match o with
  | some s => if s ≠ [] then s else d
  | none => d

/-- Telethon `DocumentAttribute*` objects, keeping only the fields the
repository inspects (`file_name`, `round_message`, `voice`, `duration`). -/
inductive DocAttr
  | fileName (name : Str)
  | animated
  | sticker
  | video (roundMessage : Bool) (duration : Nat)
  | audio (voice : Bool) (duration : Nat)
  | imageSize
deriving DecidableEq

/-- Telethon `Document`: `size`, `mime_type` (both nullable) and the
attribute list. -/
structure TlDocument where
  size : Option Nat
  mimeType : Option Str
  attributes : List DocAttr
deriving DecidableEq

/-- One entry of `photo.sizes`; thumbnail variants may lack the `size`
field, which the code reads with `getattr(..., "size", 0) or 0`. -/
structure PhotoSize where
  size : Option Nat
deriving DecidableEq

/-- Telethon `Photo` with its ascending-sorted size list. -/
structure TlPhoto where
  sizes : List PhotoSize
deriving DecidableEq

/-- Telethon `message.media` variants handled by the repository. -/
inductive TlMedia
  | noMedia
  | photo (photo : Option TlPhoto)
  | document (document : Option TlDocument) (round : Bool)
  | contact
  | geo
  | geoLive
  | poll
  | venue
  | webPage (url : Option Str)
  | otherMedia
deriving DecidableEq

/-- The slice of a Telethon message that the downloader reads: `message.id`,
`message.media`, the chat username obtained from `message.get_chat()`, and
`message.grouped_id`. -/
structure TlMessage where
  id : Nat
  media : TlMedia
  chatUsername : Str
  groupedId : Option Int
deriving DecidableEq

/-- `getattr(largest, "size", 0) or 0` over `photo.sizes[-1]` guarded by
`if photo and photo.sizes`. -/
def photoApproxSize : Option TlPhoto → Nat
  | some ph =>
    match ph.sizes.getLast? with
    | some largest => largest.size.getD 0
    | none => 0
  | none => 0

/-- First attribute carrying a non-empty `file_name` (the downloader's loop
with `break`). -/
def firstFileName : List DocAttr → Str
  | [] => []
  | .fileName n :: rest => if n ≠ [] then n else firstFileName rest
  | _ :: rest => firstFileName rest

/-- Last attribute carrying a non-empty `file_name` (the parser's loop
without `break`). -/
def lastFileName : List DocAttr → Str → Str
  | [], acc => acc
  | .fileName n :: rest, acc => lastFileName rest (if n ≠ [] then n else acc)
  | _ :: rest, acc => lastFileName rest acc

/-- Last `duration` attribute value (the parser's loop keeps overwriting). -/
def lastDuration : List DocAttr → Nat → Nat
  | [], acc => acc
  | .video _ d :: rest, _ => lastDuration rest d
  | .audio _ d :: rest, _ => lastDuration rest d
  | _ :: rest, acc => lastDuration rest acc

/-- Runtime-type test `type(a).__name__ == "DocumentAttributeSticker"`. -/
def isStickerAttr : DocAttr → Bool
  | .sticker => true
  | _ => false

/-- Runtime-type test for `DocumentAttributeAnimated`. -/
def isAnimatedAttr : DocAttr → Bool
  | .animated => true
  | _ => false

/-- Runtime-type test for `DocumentAttributeVideo`. -/
def isVideoAttr : DocAttr → Bool
  | .video _ _ => true
  | _ => false

/-- Runtime-type test for `DocumentAttributeAudio`. -/
def isAudioAttr : DocAttr → Bool
  | .audio _ _ => true
  | _ => false

/-- `getattr(a, "round_message", False)` over the video attributes. -/
def isRoundVideoAttr : DocAttr → Bool
  | .video true _ => true
  | _ => false

/-- `getattr(a, "voice", False)` over the audio attributes. -/
def isVoiceAudioAttr : DocAttr → Bool
  | .audio true _ => true
  | _ => false

/-- Lookup table standing in for `mimetypes.guess_extension` on the mime
types this development exercises (`None` elsewhere, as the stdlib returns
for unknown types). -/
def guessExtension (m : Str) : Option Str :=
  if m = str "video/mp4" then some (str ".mp4")
  else if m = str "audio/ogg" then some (str ".ogg")
  else if m = str "image/jpeg" then some (str ".jpg")
  else if m = str "audio/mpeg" then some (str ".mp3")
  else none

/-- `_get_media_meta(message)` from media_downloader_telethon.py:
`(media_type, approx_file_size, suggested_filename)`. -/
def getMediaMetaT (msg : TlMessage) : Str × Nat × Str :=
  match msg.media with
  | .noMedia => ([], 0, [])
  | .photo p => (str "photo", photoApproxSize p, [])
  | .document none _ => (str "document", 0, [])
  | .document (some doc) _ =>
    let size := doc.size.getD 0
    let mime := doc.mimeType.getD []
    let fname := firstFileName doc.attributes
    let mtype :=
      if doc.attributes.any isStickerAttr then str "sticker"
      else if doc.attributes.any isAnimatedAttr then str "gif"
      else if doc.attributes.any isVideoAttr then
        (if doc.attributes.any isRoundVideoAttr then str "video_note" else str "video")
      else if doc.attributes.any isAudioAttr then
        (if doc.attributes.any isVoiceAudioAttr then str "voice" else str "audio")
      else str "document"
    let fname2 :=
      if fname = [] then mtype ++ str "_" ++ natStr msg.id ++ (guessExtension mime).getD []
      else fname
    (mtype, size, fname2)
  | .contact => (str "contact", 0, [])
  | .geo => (str "location", 0, [])
  | .geoLive => (str "location", 0, [])
  | .poll => (str "poll", 0, [])
  | .venue => (str "venue", 0, [])
  | .webPage _ => (str "webpage", 0, [])
  | .otherMedia => (str "other", 0, [])

/-- Dynamically-typed Python tuple slot: `_detect_media` in
parser_telethon.py puts values of different runtime types into the same
tuple position, so those slots are embedded as a sum. -/
inductive PyVal
  | str (v : Str)
  | int (v : Nat)
deriving DecidableEq

/-- `_detect_media(message)` from parser_telethon.py.  Its docstring
declares the tuple `(type, filename, size, duration, mime)`; the second and
third slots are embedded as `PyVal` because the photo branch actually
returns `("photo", sz, "", 0, "image/jpeg")`, an `int` in the filename slot
and a `str` in the size slot. -/
def detectMedia (msg : TlMessage) : Str × PyVal × PyVal × Nat × Str :=
  match msg.media with
  | .noMedia => ([], .str [], .int 0, 0, [])
  | .photo p => (str "photo", .int (photoApproxSize p), .str [], 0, str "image/jpeg")
  | .document none _ => (str "document", .str [], .int 0, 0, [])
  | .document (some doc) rnd =>
    let mime := doc.mimeType.getD []
    let size := doc.size.getD 0
    let fname := lastFileName doc.attributes []
    let dur := lastDuration doc.attributes 0
    let mtype :=
      if strContains mime (str "video") ∧ rnd = false then
        (if doc.attributes.any isAnimatedAttr then str "gif"
         else if doc.attributes.any isVideoAttr then
           (if doc.attributes.any isRoundVideoAttr then str "video_note" else str "video")
         else str "video")
      else if strContains mime (str "audio") then
        (if doc.attributes.any isAudioAttr then
           (if doc.attributes.any isVoiceAudioAttr then str "voice" else str "audio")
         else str "audio")
      else if doc.attributes.any isStickerAttr then str "sticker"
      else str "document"
    (mtype, .str fname, .int size, dur, mime)
  | .contact => (str "contact", .str [], .int 0, 0, [])
  | .geo => (str "location", .str [], .int 0, 0, [])
  | .geoLive => (str "location", .str [], .int 0, 0, [])
  | .poll => (str "poll", .str [], .int 0, 0, [])
  | .venue => (str "venue", .str [], .int 0, 0, [])
  | .webPage u => (str "webpage", .str [], .int 0, 0, u.getD [])
  | .otherMedia => (str "other", .str [], .int 0, 0, [])

-- ───────────────────────── media descriptors (pyrogram) ─────────────────────────

/-- Pyrogram `Photo`. -/
structure PyPhoto where
  fileSize : Option Nat
deriving DecidableEq

/-- Pyrogram `Video`. -/
structure PyVideo where
  fileSize : Option Nat
  fileName : Option Str
  mimeType : Option Str
  duration : Option Nat
deriving DecidableEq

/-- Pyrogram `Animation`. -/
structure PyAnimation where
  fileSize : Option Nat
  fileName : Option Str
  mimeType : Option Str
  duration : Option Nat
deriving DecidableEq

/-- Pyrogram `Audio`. -/
structure PyAudio where
  fileSize : Option Nat
  fileName : Option Str
  mimeType : Option Str
  duration : Option Nat
deriving DecidableEq

/-- Pyrogram `Voice`. -/
structure PyVoice where
  fileSize : Option Nat
  mimeType : Option Str
  duration : Option Nat
deriving DecidableEq

/-- Pyrogram `VideoNote`. -/
structure PyVideoNote where
  fileSize : Option Nat
  duration : Option Nat
deriving DecidableEq

/-- Pyrogram `Sticker`. -/
structure PySticker where
  fileSize : Option Nat
  isAnimated : Bool
  isVideo : Bool
deriving DecidableEq

/-- Pyrogram `Document`. -/
structure PyDocument where
  fileSize : Option Nat
  fileName : Option Str
  mimeType : Option Str
deriving DecidableEq

/-- The mutually-exclusive pyrogram media accessors (`msg.photo`,
`msg.video`, ..., `msg.web_page`), of which at most one is non-None. -/
inductive PyMedia
  | noMedia
  | photo (p : PyPhoto)
  | video (v : PyVideo)
  | animation (a : PyAnimation)
  | audio (a : PyAudio)
  | voice (v : PyVoice)
  | videoNote (v : PyVideoNote)
  | sticker (s : PySticker)
  | document (d : PyDocument)
  | contact
  | location
  | poll
  | venue
  | webPage
deriving DecidableEq

/-- The slice of a Pyrogram message that the downloader reads. -/
structure PyMessage where
  id : Nat
  media : PyMedia
  chatUsername : Str
deriving DecidableEq

/-- `_get_media_meta(msg)` from media_downloader_pyrogram.py:
`(media_type, file_size, file_name, mime_type)`. -/
def getMediaMetaP (msg : PyMessage) : Str × Nat × Str × Str :=
  match msg.media with
  | .photo p => (str "photo", p.fileSize.getD 0, [], str "image/jpeg")
  | .video v =>
    (str "video", v.fileSize.getD 0,
      orStr v.fileName (str "video_" ++ natStr msg.id ++ str ".mp4"),
      orStr v.mimeType (str "video/mp4"))
  | .animation a =>
    (str "gif", a.fileSize.getD 0,
      orStr a.fileName (str "animation_" ++ natStr msg.id ++ str ".mp4"),
      orStr a.mimeType (str "video/mp4"))
  | .audio a =>
    (str "audio", a.fileSize.getD 0,
      orStr a.fileName (str "audio_" ++ natStr msg.id ++ str ".mp3"),
      orStr a.mimeType (str "audio/mpeg"))
  | .voice v =>
    (str "voice", v.fileSize.getD 0,
      str "voice_" ++ natStr msg.id ++ str ".ogg",
      orStr v.mimeType (str "audio/ogg"))
  | .videoNote v =>
    (str "video_note", v.fileSize.getD 0,
      str "videonote_" ++ natStr msg.id ++ str ".mp4",
      str "video/mp4")
  | .sticker s =>
    (str "sticker", s.fileSize.getD 0,
      str "sticker_" ++ natStr msg.id ++
        (if s.isAnimated then str ".tgs" else if s.isVideo then str ".webm" else str ".webp"),
      [])
  | .document d =>
    (str "document", d.fileSize.getD 0,
      orStr d.fileName (str "file_" ++ natStr msg.id),
      orStr d.mimeType [])
  | .contact => (str "contact", 0, [], [])
  | .location => (str "location", 0, [], [])
  | .poll => (str "poll", 0, [], [])
  | .venue => (str "venue", 0, [], [])
  | .noMedia => ([], 0, [], [])
  | .webPage => ([], 0, [], [])

/-- `_detect_media_pyrogram(msg)` from parser_pyrogram.py:
`(mtype, fname, fsize, dur, mime)`. -/
def detectMediaPyrogram (msg : PyMessage) : Str × Str × Nat × Nat × Str :=
  match msg.media with
  | .noMedia => ([], [], 0, 0, [])
  | .photo p => (str "photo", [], p.fileSize.getD 0, 0, [])
  | .video v =>
    (str "video", orStr v.fileName [], v.fileSize.getD 0, v.duration.getD 0,
      orStr v.mimeType [])
  | .animation a =>
    (str "gif", [], a.fileSize.getD 0, a.duration.getD 0, orStr a.mimeType [])
  | .audio a =>
    (str "audio", orStr a.fileName [], a.fileSize.getD 0, a.duration.getD 0,
      orStr a.mimeType [])
  | .voice v =>
    (str "voice", [], v.fileSize.getD 0, v.duration.getD 0, orStr v.mimeType [])
  | .videoNote v => (str "video_note", [], v.fileSize.getD 0, v.duration.getD 0, [])
  | .sticker s => (str "sticker", [], s.fileSize.getD 0, 0, [])
  | .document d =>
    (str "document", orStr d.fileName [], d.fileSize.getD 0, 0, orStr d.mimeType [])
  | .contact => (str "contact", [], 0, 0, [])
  | .location => (str "location", [], 0, 0, [])
  | .poll => (str "poll", [], 0, 0, [])
  | .venue => (str "venue", [], 0, 0, [])
  | .webPage => (str "webpage", [], 0, 0, [])

-- ───────────────────────── classification claims C3, C4 ─────────────────────────

lemma isStickerAttr_iff (a : DocAttr) : isStickerAttr a = true ↔ a = DocAttr.sticker := by
  cases a <;> simp [isStickerAttr]

lemma isAnimatedAttr_iff (a : DocAttr) : isAnimatedAttr a = true ↔ a = DocAttr.animated := by
  cases a <;> simp [isAnimatedAttr]

lemma isVideoAttr_iff (a : DocAttr) : isVideoAttr a = true ↔ ∃ r d, a = DocAttr.video r d := by
  cases a <;> simp [isVideoAttr]

lemma isAudioAttr_iff (a : DocAttr) : isAudioAttr a = true ↔ ∃ v d, a = DocAttr.audio v d := by
  cases a <;> simp [isAudioAttr]

lemma isRoundVideoAttr_iff (a : DocAttr) :
    isRoundVideoAttr a = true ↔ ∃ d, a = DocAttr.video true d := by
  cases a
  all_goals first
    | (rename_i r d; cases r <;> simp [isRoundVideoAttr])
    | simp [isRoundVideoAttr]

lemma isVoiceAudioAttr_iff (a : DocAttr) :
    isVoiceAudioAttr a = true ↔ ∃ d, a = DocAttr.audio true d := by
  cases a
  all_goals first
    | (rename_i v d; cases v <;> simp [isVoiceAudioAttr])
    | simp [isVoiceAudioAttr]

lemma any_sticker_iff (attrs : List DocAttr) :
    attrs.any isStickerAttr = true ↔ DocAttr.sticker ∈ attrs := by
  simp [List.any_eq_true, isStickerAttr_iff]

lemma any_animated_iff (attrs : List DocAttr) :
    attrs.any isAnimatedAttr = true ↔ DocAttr.animated ∈ attrs := by
  simp [List.any_eq_true, isAnimatedAttr_iff]

lemma any_video_iff (attrs : List DocAttr) :
    attrs.any isVideoAttr = true ↔ ∃ r d, DocAttr.video r d ∈ attrs := by
  rw [List.any_eq_true]
  constructor
  · rintro ⟨a, ha, hp⟩
    obtain ⟨r, d, rfl⟩ := (isVideoAttr_iff a).mp hp
    exact ⟨r, d, ha⟩
  · rintro ⟨r, d, hm⟩
    exact ⟨_, hm, rfl⟩

lemma any_audio_iff (attrs : List DocAttr) :
    attrs.any isAudioAttr = true ↔ ∃ v d, DocAttr.audio v d ∈ attrs := by
  rw [List.any_eq_true]
  constructor
  · rintro ⟨a, ha, hp⟩
    obtain ⟨v, d, rfl⟩ := (isAudioAttr_iff a).mp hp
    exact ⟨v, d, ha⟩
  · rintro ⟨v, d, hm⟩
    exact ⟨_, hm, rfl⟩

lemma any_round_iff (attrs : List DocAttr) :
    attrs.any isRoundVideoAttr = true ↔ ∃ d, DocAttr.video true d ∈ attrs := by
  rw [List.any_eq_true]
  constructor
  · rintro ⟨a, ha, hp⟩
    obtain ⟨d, rfl⟩ := (isRoundVideoAttr_iff a).mp hp
    exact ⟨d, ha⟩
  · rintro ⟨d, hm⟩
    exact ⟨_, hm, rfl⟩

lemma any_voice_iff (attrs : List DocAttr) :
    attrs.any isVoiceAudioAttr = true ↔ ∃ d, DocAttr.audio true d ∈ attrs := by
  rw [List.any_eq_true]
  constructor
  · rintro ⟨a, ha, hp⟩
    obtain ⟨d, rfl⟩ := (isVoiceAudioAttr_iff a).mp hp
    exact ⟨d, ha⟩
  · rintro ⟨d, hm⟩
    exact ⟨_, hm, rfl⟩

lemma bool_eq_false_of_ne_true {b : Bool} (h : ¬ b = true) : b = false := by
  cases b
  · rfl
  · exact absurd rfl h

/-- Message wrapper for a Telethon document with the given fields. -/
def docMsgT (mid : Nat) (size : Option Nat) (mime : Option Str)
    (attrs : List DocAttr) (rnd : Bool) : TlMessage :=
  ⟨mid, .document (some ⟨size, mime, attrs⟩) rnd, [], none⟩

/-- C3 counterexample: a document carrying both a sticker attribute and a
video attribute with a video mime is classified as "video", not "sticker",
by the parser's `_detect_media` (which dispatches on the mime type before
ever looking at the sticker attribute). -/
theorem c3_mime_first_counterexample :
    (detectMedia (docMsgT 7 (some 1000) (some (str "video/webm"))
        [DocAttr.sticker, DocAttr.video false 0] false)).1 = str "video" ∧
    (detectMedia (docMsgT 7 (some 1000) (some (str "video/webm"))
        [DocAttr.sticker, DocAttr.video false 0] false)).1 ≠ str "sticker" := by
  constructor
  · decide
  · decide

/-- C3 (amended): the downloader's `_get_media_meta` does inspect document
attribute flags in the fixed priority order sticker > animated ("gif") >
video (round variantyields "video_note", else "video") > audio (voice flag
yields "voice", else "audio") > plain "document"; in particular a
descriptor carrying both a sticker flag and a video attribute or mime
classifies as "sticker" there.  The parser's `_detect_media`, however,
dispatches on the mime type first: with a video mime (non-round media), no
animated attribute and a non-round video attribute it classifies as
"video" even when a sticker attribute is present. -/
theorem c3_attribute_priority (mid : Nat) (size : Option Nat) (mime : Option Str)
    (attrs : List DocAttr) (rnd : Bool) :
    (DocAttr.sticker ∈ attrs →
      (getMediaMetaT (docMsgT mid size mime attrs rnd)).1 = str "sticker") ∧
    (DocAttr.sticker ∉ attrs → DocAttr.animated ∈ attrs →
      (getMediaMetaT (docMsgT mid size mime attrs rnd)).1 = str "gif") ∧
    (DocAttr.sticker ∉ attrs → DocAttr.animated ∉ attrs →
      (∃ r d, DocAttr.video r d ∈ attrs) →
      ((∃ d, DocAttr.video true d ∈ attrs) →
        (getMediaMetaT (docMsgT mid size mime attrs rnd)).1 = str "video_note") ∧
      ((¬ ∃ d, DocAttr.video true d ∈ attrs) →
        (getMediaMetaT (docMsgT mid size mime attrs rnd)).1 = str "video")) ∧
    (DocAttr.sticker ∉ attrs → DocAttr.animated ∉ attrs →
      (¬ ∃ r d, DocAttr.video r d ∈ attrs) →
      (∃ v d, DocAttr.audio v d ∈ attrs) →
      ((∃ d, DocAttr.audio true d ∈ attrs) →
        (getMediaMetaT (docMsgT mid size mime attrs rnd)).1 = str "voice") ∧
      ((¬ ∃ d, DocAttr.audio true d ∈ attrs) →
        (getMediaMetaT (docMsgT mid size mime attrs rnd)).1 = str "audio")) ∧
    (DocAttr.sticker ∉ attrs → DocAttr.animated ∉ attrs →
      (¬ ∃ r d, DocAttr.video r d ∈ attrs) →
      (¬ ∃ v d, DocAttr.audio v d ∈ attrs) →
      (getMediaMetaT (docMsgT mid size mime attrs rnd)).1 = str "document") ∧
    (strContains (mime.getD []) (str "video") = true → rnd = false →
      DocAttr.animated ∉ attrs →
      (∃ r d, DocAttr.video r d ∈ attrs) →
      (¬ ∃ d, DocAttr.video true d ∈ attrs) →
      (detectMedia (docMsgT mid size mime attrs rnd)).1 = str "video") := by
  refine ⟨?_, ?_, ?_, ?_, ?_, ?_⟩
  · intro h
    have hs := (any_sticker_iff attrs).mpr h
    simp [getMediaMetaT, docMsgT, hs]
  · intro h1 h2
    have hs := bool_eq_false_of_ne_true (fun hc => h1 ((any_sticker_iff attrs).mp hc))
    have ha := (any_animated_iff attrs).mpr h2
    simp [getMediaMetaT, docMsgT, hs, ha]
  · intro h1 h2 h3
    have hs := bool_eq_false_of_ne_true (fun hc => h1 ((any_sticker_iff attrs).mp hc))
    have ha := bool_eq_false_of_ne_true (fun hc => h2 ((any_animated_iff attrs).mp hc))
    have hv := (any_video_iff attrs).mpr h3
    constructor
    · intro h4
      have hr := (any_round_iff attrs).mpr h4
      simp [getMediaMetaT, docMsgT, hs, ha, hv, hr]
    · intro h4
      have hr := bool_eq_false_of_ne_true (fun hc => h4 ((any_round_iff attrs).mp hc))
      simp [getMediaMetaT, docMsgT, hs, ha, hv, hr]
  · intro h1 h2 h3 h4
    have hs := bool_eq_false_of_ne_true (fun hc => h1 ((any_sticker_iff attrs).mp hc))
    have ha := bool_eq_false_of_ne_true (fun hc => h2 ((any_animated_iff attrs).mp hc))
    have hv := bool_eq_false_of_ne_true (fun hc => h3 ((any_video_iff attrs).mp hc))
    have hau := (any_audio_iff attrs).mpr h4
    constructor
    · intro h5
      have hvo := (any_voice_iff attrs).mpr h5
      simp [getMediaMetaT, docMsgT, hs, ha, hv, hau, hvo]
    · intro h5
      have hvo := bool_eq_false_of_ne_true (fun hc => h5 ((any_voice_iff attrs).mp hc))
      simp [getMediaMetaT, docMsgT, hs, ha, hv, hau, hvo]
  · intro h1 h2 h3 h4
    have hs := bool_eq_false_of_ne_true (fun hc => h1 ((any_sticker_iff attrs).mp hc))
    have ha := bool_eq_false_of_ne_true (fun hc => h2 ((any_animated_iff attrs).mp hc))
    have hv := bool_eq_false_of_ne_true (fun hc => h3 ((any_video_iff attrs).mp hc))
    have hau := bool_eq_false_of_ne_true (fun hc => h4 ((any_audio_iff attrs).mp hc))
    simp [getMediaMetaT, docMsgT, hs, ha, hv, hau]
  · intro hm hr h1 h2 h3
    have ha := bool_eq_false_of_ne_true (fun hc => h1 ((any_animated_iff attrs).mp hc))
    have hv := (any_video_iff attrs).mpr h2
    have hro := bool_eq_false_of_ne_true (fun hc => h3 ((any_round_iff attrs).mp hc))
    simp [detectMedia, docMsgT, hm, hr, ha, hv, hro]

/-- C3 witness: instantiating the priority theorem on the counterexample
descriptor shows the downloader classifies it as "sticker". -/
theorem c3_attribute_priority_witness :
    (getMediaMetaT (docMsgT 7 (some 1000) (some (str "video/webm"))
        [DocAttr.sticker, DocAttr.video false 0] false)).1 = str "sticker" :=
  (c3_attribute_priority 7 (some 1000) (some (str "video/webm"))
    [DocAttr.sticker, DocAttr.video false 0] false).1 (by decide)

/-- C4: a photo message whose `photo.sizes` ends with a 5000-byte variant.
The parser's `_detect_media` returns `("photo", 5000, "", 0, "image/jpeg")`
— the approximate size sits in the *filename* slot (as an `int`) and an
empty *string* sits in the size slot of the `(type, filename, size,
duration, mime)` tuple its docstring declares — while the downloader's
`_get_media_meta` and the pyrogram parser place the 5000 in the size
field.  This contradicts `_detect_media`'s own docstring and the
`ParsedPost` field types (`media_file_name: str`, `media_file_size: int`)
it is unpacked into. -/
theorem c4_photo_size_slot_bug :
    detectMedia ⟨9, .photo (some ⟨[⟨some 100⟩, ⟨some 5000⟩]⟩), [], none⟩ =
      (str "photo", PyVal.int 5000, PyVal.str [], 0, str "image/jpeg") ∧
    getMediaMetaT ⟨9, .photo (some ⟨[⟨some 100⟩, ⟨some 5000⟩]⟩), [], none⟩ =
      (str "photo", 5000, []) ∧
    detectMediaPyrogram ⟨9, .photo ⟨some 5000⟩, []⟩ = (str "photo", [], 5000, 0, []) := by
  refine ⟨?_, ?_, ?_⟩ <;> decide

-- ───────────────────────── download engine ─────────────────────────

/-- The `MediaResult` dataclass shared (field for field) by both downloader
modules. -/
structure MediaResult where
  method : Str := str "none"
  filePath : Option Str := none
  fileSize : Nat := 0
  fileName : Str := []
  mimeType : Str := []
  publicLink : Str := []
  mediaType : Str := []
  error : Str := []
  durationMs : Nat := 0
deriving DecidableEq

/-- Outcome of the transport download call: an exception carrying
`str(exc)`, or a returned path where the empty string stands for every
falsy return (`None` included), exactly as the code's `if path:` test
distinguishes them. -/
inductive DlOutcome
  | raise (err : Str)
  | ret (path : Str)
deriving DecidableEq

/-- Module-level configuration (`MAX_DOWNLOAD_SIZE`, `ATTACH_MODE`,
`KEEP_FILES`) read from the environment at import time. -/
structure Cfg where
  maxDownloadSize : Nat
  attachMode : Str
  keepFiles : Bool

/-- Oracle answers of the external collaborators for one message:
the transport download, `os.path.getsize`, `mimetypes.guess_type`, the
wall-clock duration, and the send calls (text sends may succeed or fail
depending on the payload). -/
structure Transport where
  download : DlOutcome
  diskSize : Nat
  guessedMime : Option Str
  elapsedMs : Nat
  sendFileOk : Bool
  sendTextOk : Str → Bool
  sendErr : Str

/-- `_build_public_link` / `_build_link`: `https://t.me/{username}/{id}`
for public chats, `""` otherwise. -/
def buildPublicLink (username : Str) (mid : Nat) : Str :=
  if username ≠ [] then str "https://t.me/" ++ username ++ str "/" ++ natStr mid else []

/-- `os.path.basename` on the forward-slash paths the downloader builds. -/
def basename (p : Str) : Str := (p.reverse.takeWhile (fun c => c ≠ '/')).reverse

/-- The recurring fallback `"link" if result.public_link else "none"`. -/
def linkOrNone (publicLink : Str) : Str :=
  if publicLink ≠ [] then str "link" else str "none"

/-- The final method decision block of both `download_media` variants:
`both` / `file` / `link` / `none` from the presence of a file path and a
public link. -/
def decideMethod (filePath : Option Str) (publicLink : Str) : Str :=
  if filePath ≠ none ∧ publicLink ≠ [] then str "both"
  else if filePath ≠ none then str "file"
  else if publicLink ≠ [] then str "link"
  else str "none"

/-- `download_media(client, message, dest_dir, size_limit)` from
media_downloader_telethon.py.  Returns the `MediaResult` paired with a flag
recording whether the transport download call was invoked. -/
def download_mediaT (cfg : Cfg) (tr : Transport) (msg : TlMessage)
    (sizeLimit : Nat) : MediaResult × Bool :=
  match getMediaMetaT msg with
  | (mediaType, approxSize, suggestedName) =>
    if mediaType = [] ∨ mediaType ∈ [str "contact", str "location", str "poll",
        str "venue", str "webpage"] then
      ({ mediaType := mediaType, method := str "none" }, false)
    else
      let publicLink := buildPublicLink msg.chatUsername msg.id
      let effectiveLimit := if sizeLimit ≠ 0 then sizeLimit else cfg.maxDownloadSize
      if effectiveLimit ≠ 0 ∧ approxSize > effectiveLimit then
        ({ mediaType := mediaType, fileSize := approxSize, fileName := suggestedName,
           publicLink := publicLink, method := linkOrNone publicLink }, false)
      else
        match tr.download with
        | .raise e =>
          ({ mediaType := mediaType, fileSize := approxSize, fileName := suggestedName,
             publicLink := publicLink, error := e,
             method := linkOrNone publicLink }, true)
        | .ret p =>
          if p = [] then
            ({ mediaType := mediaType, fileSize := approxSize, fileName := suggestedName,
               publicLink := publicLink, durationMs := tr.elapsedMs,
               error := str "download_media returned None",
               method := linkOrNone publicLink }, true)
          else
            ({ mediaType := mediaType, filePath := some p, fileSize := tr.diskSize,
               fileName := basename p, mimeType := orStr tr.guessedMime [],
               publicLink := publicLink, durationMs := tr.elapsedMs,
               method := decideMethod (some p) publicLink }, true)

/-- `download_media(client, message, dest_dir, size_limit)` from
media_downloader_pyrogram.py (the pyrogram variant records size, name and
mime before the non-downloadable check and its terminal set has no
"webpage" entry; a pyrogram web-page message classifies as `""`). -/
def download_mediaP (cfg : Cfg) (tr : Transport) (msg : PyMessage)
    (sizeLimit : Nat) : MediaResult × Bool :=
  match getMediaMetaP msg with
  | (mediaType, approxSize, fname, mime) =>
    if mediaType = [] ∨ mediaType ∈ [str "contact", str "location", str "poll",
        str "venue"] then
      ({ mediaType := mediaType, fileSize := approxSize, fileName := fname,
         mimeType := mime, method := str "none" }, false)
    else
      let publicLink := buildPublicLink msg.chatUsername msg.id
      let effectiveLimit := if sizeLimit ≠ 0 then sizeLimit else cfg.maxDownloadSize
      if effectiveLimit ≠ 0 ∧ approxSize > effectiveLimit then
        ({ mediaType := mediaType, fileSize := approxSize, fileName := fname,
           mimeType := mime, publicLink := publicLink,
           method := linkOrNone publicLink }, false)
      else
        match tr.download with
        | .raise e =>
          ({ mediaType := mediaType, fileSize := approxSize, fileName := fname,
             mimeType := mime, publicLink := publicLink, error := e,
             method := linkOrNone publicLink }, true)
        | .ret p =>
          if p = [] then
            ({ mediaType := mediaType, fileSize := approxSize, fileName := fname,
               mimeType := mime, publicLink := publicLink,
               durationMs := tr.elapsedMs, error := str "download returned None",
               method := linkOrNone publicLink }, true)
          else
            ({ mediaType := mediaType, filePath := some p, fileSize := tr.diskSize,
               fileName := basename p, mimeType := orStr tr.guessedMime mime,
               publicLink := publicLink, durationMs := tr.elapsedMs,
               method := decideMethod (some p) publicLink }, true)

-- ───────────────────────── attach layer ─────────────────────────

/-- Helper rendering `tenths/10` with one decimal digit. -/
def fmtSizeAt (tenths : Nat) (unit : String) : Str :=
  natStr (tenths / 10) ++ str "." ++ natStr (tenths % 10) ++ str " " ++ str unit

/-- Integer rendering of the diagnostic `_fmt` size formatter (`_fmt`
itself repeatedly float-divides by 1024 and prints with `%.1f`; this model
truncates instead of rounding.  The rendered text feeds only the
"Media not downloaded" note and log lines; no claim depends on it). -/
def fmtSize (b : Nat) : Str :=
  if b < 1024 then fmtSizeAt (b * 10) "B"
  else if b / 1024 < 1024 then fmtSizeAt (b * 10 / 1024) "KB"
  else if b / 1048576 < 1024 then fmtSizeAt (b * 10 / 1048576) "MB"
  else if b / 1073741824 < 1024 then fmtSizeAt (b * 10 / 1073741824) "GB"
  else fmtSizeAt (b * 10 / 1099511627776) "TB"

/-- `html.escape` with its default `quote=True`. -/
def htmlEscape (s : Str) : Str :=
  s.flatMap (fun c =>
    if c = '&' then str "&amp;"
    else if c = '<' then str "&lt;"
    else if c = '>' then str "&gt;"
    else if c = '"' then str "&quot;"
    else if c = '\'' then str "&#x27;"
    else [c])

/-- The appended link line both attach functions build when a public link
exists. -/
def linkLine (publicLink : Str) : Str :=
  str "\n\n<a href=\"" ++ htmlEscape publicLink ++ str "\">🔗 Original</a>"

/-- Caption truncation: `caption[:900] + "…"` when longer than 900. -/
def truncCaption (caption : Str) : Str :=
  if caption.length > 900 then caption.take 900 ++ str "…" else caption

/-- The "Media not downloaded" note appended to the link-only text when
metadata exists but no file was fetched. -/
def notDownloadedNote (mediaType : Str) (fileSize : Nat) : Str :=
  str "\n\n📎 <b>Media not downloaded</b> (" ++ htmlEscape mediaType ++ str ", " ++
    fmtSize fileSize ++ str ")"

/-- One successful delivery to the log chat. -/
inductive SentItem
  | file (caption : Str)
  | text (body : Str)
deriving DecidableEq

/-- Result of one `download_and_attach` run: the `MediaResult` state, the
successful deliveries in order, and the exception (if any) that propagated
out of the function (`raised ≠ none` means Python raised, so `result` is
the in-flight dataclass state rather than a returned value). -/
structure DAOut where
  result : MediaResult
  sent : List SentItem
  raised : Option Str
deriving DecidableEq

/-- `(attach_mode or ATTACH_MODE).lower()`. -/
def effectiveMode (cfg : Cfg) (attachMode : Str) : Str :=
  lowerStr (if attachMode ≠ [] then attachMode else cfg.attachMode)

/-- `download_and_attach(client, message, parsed_html, log_chat,
attach_mode)` from media_downloader_telethon.py.  The mode dispatch block
computes `(send_file, send_link_only, caption)`; file deletion in the
cleanup step touches no observable state of this model and is omitted. -/
def downloadAndAttachT (cfg : Cfg) (tr : Transport) (msg : TlMessage)
    (parsedHtml : Str) (attachMode : Str) : DAOut :=
  let mode := effectiveMode cfg attachMode
  let r := (download_mediaT cfg tr msg 0).1
  if msg.groupedId ≠ none then ⟨{ r with method := str "none" }, [], none⟩
  else if r.method = str "none" then
    (if tr.sendTextOk parsedHtml then ⟨r, [.text parsedHtml], none⟩
     else ⟨r, [], some tr.sendErr⟩)
  else
    let lkLine := if r.publicLink ≠ [] then linkLine r.publicLink else []
    let caption0 := truncCaption parsedHtml
    let disp : Bool × Bool × Str :=
      if mode = str "file" then (r.filePath.isSome, false, caption0)
      else if mode = str "link" then (false, true, caption0)
      else if mode = str "both" then
        (r.filePath.isSome, false,
          if r.publicLink ≠ [] then caption0 ++ lkLine else caption0)
      else (r.filePath.isSome, !r.filePath.isSome, caption0)
    if disp.1 && r.filePath.isSome then
      (if tr.sendFileOk then
        ⟨{ r with method :=
             if mode = str "both" ∧ r.publicLink ≠ [] then str "both" else str "file" },
         [.file (disp.2.2 ++ (if mode = str "both" then lkLine else []))], none⟩
       else
        (if tr.sendTextOk parsedHtml then
          ⟨{ r with error := tr.sendErr }, [.text parsedHtml], none⟩
         else ⟨{ r with error := tr.sendErr }, [], none⟩))
    else if disp.2.1 || !r.filePath.isSome then
      let text := parsedHtml ++ (if r.publicLink ≠ [] then lkLine else []) ++
        (if r.fileSize ≠ 0 ∧ r.filePath = none then notDownloadedNote r.mediaType r.fileSize
         else [])
      (if tr.sendTextOk text then
        ⟨{ r with method := linkOrNone r.publicLink }, [.text text], none⟩
       else
        (if tr.sendTextOk parsedHtml then
          ⟨{ r with error := tr.sendErr }, [.text parsedHtml], none⟩
         else ⟨{ r with error := tr.sendErr }, [], none⟩))
    else
      (if tr.sendTextOk parsedHtml then ⟨r, [.text parsedHtml], none⟩
       else
        (if tr.sendTextOk parsedHtml then
          ⟨{ r with error := tr.sendErr }, [.text parsedHtml], none⟩
         else ⟨{ r with error := tr.sendErr }, [], none⟩))

/-- `download_and_attach(client, message, parsed_html, log_chat,
attach_mode)` from media_downloader_pyrogram.py (no album check; the
"both" branch appends the link line to the caption unconditionally). -/
def downloadAndAttachP (cfg : Cfg) (tr : Transport) (msg : PyMessage)
    (parsedHtml : Str) (attachMode : Str) : DAOut :=
  let mode := effectiveMode cfg attachMode
  let r := (download_mediaP cfg tr msg 0).1
  if r.method = str "none" then
    (if tr.sendTextOk parsedHtml then ⟨r, [.text parsedHtml], none⟩
     else ⟨r, [], some tr.sendErr⟩)
  else
    let lkLine := if r.publicLink ≠ [] then linkLine r.publicLink else []
    let caption0 := truncCaption parsedHtml
    let disp : Bool × Bool × Str :=
      if mode = str "file" then (r.filePath.isSome, false, caption0)
      else if mode = str "link" then (false, true, caption0)
      else if mode = str "both" then (r.filePath.isSome, false, caption0 ++ lkLine)
      else (r.filePath.isSome, !r.filePath.isSome, caption0)
    if disp.1 && r.filePath.isSome then
      (if tr.sendFileOk then
        ⟨{ r with method :=
             if mode = str "both" ∧ r.publicLink ≠ [] then str "both" else str "file" },
         [.file (disp.2.2 ++ (if mode = str "both" then lkLine else []))], none⟩
       else
        (if tr.sendTextOk parsedHtml then
          ⟨{ r with error := tr.sendErr }, [.text parsedHtml], none⟩
         else ⟨{ r with error := tr.sendErr }, [], none⟩))
    else if disp.2.1 || !r.filePath.isSome then
      let text := parsedHtml ++ (if r.publicLink ≠ [] then lkLine else []) ++
        (if r.fileSize ≠ 0 ∧ r.filePath = none then notDownloadedNote r.mediaType r.fileSize
         else [])
      (if tr.sendTextOk text then
        ⟨{ r with method := linkOrNone r.publicLink }, [.text text], none⟩
       else
        (if tr.sendTextOk parsedHtml then
          ⟨{ r with error := tr.sendErr }, [.text parsedHtml], none⟩
         else ⟨{ r with error := tr.sendErr }, [], none⟩))
    else
      (if tr.sendTextOk parsedHtml then ⟨r, [.text parsedHtml], none⟩
       else
        (if tr.sendTextOk parsedHtml then
          ⟨{ r with error := tr.sendErr }, [.text parsedHtml], none⟩
         else ⟨{ r with error := tr.sendErr }, [], none⟩))

-- ───────────────────────── download engine lemmas ─────────────────────────

lemma buildPublicLink_eq_nil_iff (u : Str) (mid : Nat) :
    buildPublicLink u mid = [] ↔ u = [] := by
  unfold buildPublicLink
  by_cases h : u = []
  · simp [h]
  · rw [if_pos h]
    constructor
    · intro hc
      have h1 := (List.append_eq_nil.mp hc).1
      have h2 := (List.append_eq_nil.mp h1).1
      exact absurd (List.append_eq_nil.mp h2).1 (by decide)
    · intro hu
      exact absurd hu h

lemma linkOrNone_buildPublicLink (u : Str) (mid : Nat) :
    linkOrNone (buildPublicLink u mid) =
      if u ≠ [] then str "link" else str "none" := by
  unfold linkOrNone
  by_cases hu : u = []
  · rw [if_neg (fun hc => hc ((buildPublicLink_eq_nil_iff u mid).mpr hu)),
      if_neg (fun hc => hc hu)]
  · rw [if_pos (fun hc => hu ((buildPublicLink_eq_nil_iff u mid).mp hc)), if_pos hu]

/-- Shape of every `MediaResult` a `download_media` run can produce: either
no file and the link-or-none fallback, or no file and method "none", or a
file with the final four-way method decision. -/
def dmShape (r : MediaResult) : Prop :=
  (r.filePath = none ∧ r.method = linkOrNone r.publicLink) ∨
  (r.filePath = none ∧ r.method = str "none") ∨
  (∃ p, r.filePath = some p ∧ r.method = decideMethod (some p) r.publicLink)

lemma dmT_shape (cfg : Cfg) (tr : Transport) (msg : TlMessage) (sl : Nat) :
    dmShape (download_mediaT cfg tr msg sl).1 := by
  rcases hmeta : getMediaMetaT msg with ⟨mt, approx, name⟩
  unfold download_mediaT
  rw [hmeta]
  dsimp only
  by_cases hterm : mt = [] ∨ mt ∈ [str "contact", str "location", str "poll",
      str "venue", str "webpage"]
  · rw [if_pos hterm]
    exact Or.inr (Or.inl ⟨rfl, rfl⟩)
  · rw [if_neg hterm]
    by_cases hskip : (if sl ≠ 0 then sl else cfg.maxDownloadSize) ≠ 0 ∧
        approx > (if sl ≠ 0 then sl else cfg.maxDownloadSize)
    · rw [if_pos hskip]
      exact Or.inl ⟨rfl, rfl⟩
    · rw [if_neg hskip]
      rcases hd : tr.download with e | p
      · exact Or.inl ⟨rfl, rfl⟩
      · dsimp only
        by_cases hp : p = []
        · rw [if_pos hp]
          exact Or.inl ⟨rfl, rfl⟩
        · rw [if_neg hp]
          exact Or.inr (Or.inr ⟨p, rfl, rfl⟩)

lemma dmP_shape (cfg : Cfg) (tr : Transport) (msg : PyMessage) (sl : Nat) :
    dmShape (download_mediaP cfg tr msg sl).1 := by
  rcases hmeta : getMediaMetaP msg with ⟨mt, approx, name, mime⟩
  unfold download_mediaP
  rw [hmeta]
  dsimp only
  by_cases hterm : mt = [] ∨ mt ∈ [str "contact", str "location", str "poll", str "venue"]
  · rw [if_pos hterm]
    exact Or.inr (Or.inl ⟨rfl, rfl⟩)
  · rw [if_neg hterm]
    by_cases hskip : (if sl ≠ 0 then sl else cfg.maxDownloadSize) ≠ 0 ∧
        approx > (if sl ≠ 0 then sl else cfg.maxDownloadSize)
    · rw [if_pos hskip]
      exact Or.inl ⟨rfl, rfl⟩
    · rw [if_neg hskip]
      rcases hd : tr.download with e | p
      · exact Or.inl ⟨rfl, rfl⟩
      · dsimp only
        by_cases hp : p = []
        · rw [if_pos hp]
          exact Or.inl ⟨rfl, rfl⟩
        · rw [if_neg hp]
          exact Or.inr (Or.inr ⟨p, rfl, rfl⟩)

/-- Internal coherence of a result of either shape. -/
lemma dmOk_of_shape (r : MediaResult) (h : dmShape r) :
    (r.method = str "both" → r.filePath ≠ none ∧ r.publicLink ≠ []) ∧
    (r.method = str "file" → r.filePath ≠ none ∧ r.publicLink = []) ∧
    (r.method = str "link" → r.publicLink ≠ [] ∧ r.filePath = none) ∧
    (r.method = str "none" → r.filePath = none) := by
  rcases h with ⟨h1, h2⟩ | ⟨h1, h2⟩ | ⟨p, h1, h2⟩
  · unfold linkOrNone at h2
    by_cases hp : r.publicLink ≠ []
    · rw [if_pos hp] at h2
      refine ⟨?_, ?_, ?_, ?_⟩ <;> intro h <;> rw [h2] at h
      · exact absurd h (by decide)
      · exact absurd h (by decide)
      · exact ⟨hp, h1⟩
      · exact absurd h (by decide)
    · rw [if_neg hp] at h2
      refine ⟨?_, ?_, ?_, ?_⟩ <;> intro h <;> rw [h2] at h
      · exact absurd h (by decide)
      · exact absurd h (by decide)
      · exact absurd h (by decide)
      · exact h1
  · refine ⟨?_, ?_, ?_, ?_⟩ <;> intro h <;> rw [h2] at h
    · exact absurd h (by decide)
    · exact absurd h (by decide)
    · exact absurd h (by decide)
    · exact h1
  · unfold decideMethod at h2
    by_cases hq : r.publicLink ≠ []
    · rw [if_pos ⟨by simp, hq⟩] at h2
      refine ⟨?_, ?_, ?_, ?_⟩ <;> intro h <;> rw [h2] at h
      · exact ⟨by rw [h1]; simp, hq⟩
      · exact absurd h (by decide)
      · exact absurd h (by decide)
      · exact absurd h (by decide)
    · rw [if_neg (fun hc => hq hc.2), if_pos (show (some p : Option Str) ≠ none by simp)] at h2
      push_neg at hq
      refine ⟨?_, ?_, ?_, ?_⟩ <;> intro h <;> rw [h2] at h
      · exact absurd h (by decide)
      · exact ⟨by rw [h1]; simp, hq⟩
      · exact absurd h (by decide)
      · exact absurd h (by decide)

/-- With a downloaded file the method is "both" or "file", never "none". -/
lemma method_of_filePath {r : MediaResult} (h : dmShape r) {p : Str}
    (hp : r.filePath = some p) :
    r.method ≠ str "none" ∧ (r.method = str "both" ∨ r.method = str "file") := by
  rcases h with ⟨h1, _⟩ | ⟨h1, _⟩ | ⟨q, h1, h2⟩
  · rw [h1] at hp
    exact absurd hp (by simp)
  · rw [h1] at hp
    exact absurd hp (by simp)
  · unfold decideMethod at h2
    by_cases hq : r.publicLink ≠ []
    · rw [if_pos ⟨by simp, hq⟩] at h2
      rw [h2]
      exact ⟨by decide, Or.inl rfl⟩
    · rw [if_neg (fun hc => hq hc.2),
        if_pos (show (some q : Option Str) ≠ none by simp)] at h2
      rw [h2]
      exact ⟨by decide, Or.inr rfl⟩

lemma getMediaMetaT_nonzero_not_terminal (msg : TlMessage)
    (h : (getMediaMetaT msg).2.1 ≠ 0) :
    ¬ ((getMediaMetaT msg).1 = [] ∨ (getMediaMetaT msg).1 ∈ [str "contact",
        str "location", str "poll", str "venue", str "webpage"]) := by
  rcases msg with ⟨mid, media, u, g⟩
  cases media with
  | noMedia => exact absurd rfl h
  | photo p => intro hc; exact absurd (show (str "photo" : Str) = [] ∨ (str "photo" : Str) ∈ [str "contact", str "location", str "poll", str "venue", str "webpage"] from hc) (by decide)
  | document d rnd =>
    cases d with
    | none => intro hc; exact absurd (show (str "document" : Str) = [] ∨ (str "document" : Str) ∈ [str "contact", str "location", str "poll", str "venue", str "webpage"] from hc) (by decide)
    | some doc =>
      intro hc
      unfold getMediaMetaT at hc
      dsimp only at hc
      split_ifs at hc <;> exact absurd hc (by decide)
  | contact => exact absurd rfl h
  | geo => exact absurd rfl h
  | geoLive => exact absurd rfl h
  | poll => exact absurd rfl h
  | venue => exact absurd rfl h
  | webPage url => exact absurd rfl h
  | otherMedia => exact absurd rfl h

lemma getMediaMetaP_nonzero_not_terminal (msg : PyMessage)
    (h : (getMediaMetaP msg).2.1 ≠ 0) :
    ¬ ((getMediaMetaP msg).1 = [] ∨ (getMediaMetaP msg).1 ∈ [str "contact",
        str "location", str "poll", str "venue"]) := by
  rcases msg with ⟨mid, media, u⟩
  cases media with
  | noMedia => exact absurd rfl h
  | photo p => intro hc; exact absurd (show (str "photo" : Str) = [] ∨ (str "photo" : Str) ∈ [str "contact", str "location", str "poll", str "venue"] from hc) (by decide)
  | video v => intro hc; exact absurd (show (str "video" : Str) = [] ∨ (str "video" : Str) ∈ [str "contact", str "location", str "poll", str "venue"] from hc) (by decide)
  | animation a => intro hc; exact absurd (show (str "gif" : Str) = [] ∨ (str "gif" : Str) ∈ [str "contact", str "location", str "poll", str "venue"] from hc) (by decide)
  | audio a => intro hc; exact absurd (show (str "audio" : Str) = [] ∨ (str "audio" : Str) ∈ [str "contact", str "location", str "poll", str "venue"] from hc) (by decide)
  | voice v => intro hc; exact absurd (show (str "voice" : Str) = [] ∨ (str "voice" : Str) ∈ [str "contact", str "location", str "poll", str "venue"] from hc) (by decide)
  | videoNote v => intro hc; exact absurd (show (str "video_note" : Str) = [] ∨ (str "video_note" : Str) ∈ [str "contact", str "location", str "poll", str "venue"] from hc) (by decide)
  | sticker s => intro hc; exact absurd (show (str "sticker" : Str) = [] ∨ (str "sticker" : Str) ∈ [str "contact", str "location", str "poll", str "venue"] from hc) (by decide)
  | document d => intro hc; exact absurd (show (str "document" : Str) = [] ∨ (str "document" : Str) ∈ [str "contact", str "location", str "poll", str "venue"] from hc) (by decide)
  | contact => exact absurd rfl h
  | location => exact absurd rfl h
  | poll => exact absurd rfl h
  | venue => exact absurd rfl h
  | webPage => exact absurd rfl h

lemma dmT_terminal (cfg : Cfg) (tr : Transport) (msg : TlMessage) (sl : Nat)
    (h : (getMediaMetaT msg).1 = [] ∨ (getMediaMetaT msg).1 ∈ [str "contact",
        str "location", str "poll", str "venue", str "webpage"]) :
    download_mediaT cfg tr msg sl =
      ({ mediaType := (getMediaMetaT msg).1, method := str "none" }, false) := by
  rcases hmeta : getMediaMetaT msg with ⟨mt, approx, name⟩
  rw [hmeta] at h
  dsimp only at h
  unfold download_mediaT
  rw [hmeta]
  dsimp only
  rw [if_pos h]

lemma dmP_terminal (cfg : Cfg) (tr : Transport) (msg : PyMessage) (sl : Nat)
    (h : (getMediaMetaP msg).1 = [] ∨ (getMediaMetaP msg).1 ∈ [str "contact",
        str "location", str "poll", str "venue"]) :
    download_mediaP cfg tr msg sl =
      ({ mediaType := (getMediaMetaP msg).1, fileSize := (getMediaMetaP msg).2.1,
         fileName := (getMediaMetaP msg).2.2.1, mimeType := (getMediaMetaP msg).2.2.2,
         method := str "none" }, false) := by
  rcases hmeta : getMediaMetaP msg with ⟨mt, approx, name, mime⟩
  rw [hmeta] at h
  dsimp only at h
  unfold download_mediaP
  rw [hmeta]
  dsimp only
  rw [if_pos h]

lemma attachT_method_none (cfg : Cfg) (tr : Transport) (msg : TlMessage)
    (html mode : Str) (h : (download_mediaT cfg tr msg 0).1.method = str "none") :
    (downloadAndAttachT cfg tr msg html mode).result.method = str "none" := by
  unfold downloadAndAttachT
  dsimp only
  by_cases hg : msg.groupedId ≠ none
  · rw [if_pos hg]
  · rw [if_neg hg, if_pos h]
    by_cases hs : tr.sendTextOk html = true
    · rw [if_pos hs]
      exact h
    · rw [if_neg hs]
      exact h

lemma attachP_method_none (cfg : Cfg) (tr : Transport) (msg : PyMessage)
    (html mode : Str) (h : (download_mediaP cfg tr msg 0).1.method = str "none") :
    (downloadAndAttachP cfg tr msg html mode).result.method = str "none" := by
  unfold downloadAndAttachP
  dsimp only
  rw [if_pos h]
  by_cases hs : tr.sendTextOk html = true
  · rw [if_pos hs]
    exact h
  · rw [if_neg hs]
    exact h

-- ───────────────────────── fixtures ─────────────────────────

/-- Default-like configuration (50 MB limit, auto mode, keep files). -/
def cfgFix : Cfg := ⟨52428800, str "auto", true⟩

/-- Transport oracle for a successful run. -/
def trFix : Transport :=
  ⟨.ret (str "downloads/report.pdf"), 2048, some (str "application/pdf"), 12, true,
    fun _ => true, str "boom"⟩

/-- Small document message in a public chat (telethon shape). -/
def msgDocT : TlMessage :=
  ⟨5, .document (some ⟨some 4096, some (str "application/pdf"),
    [DocAttr.fileName (str "report.pdf")]⟩) false, str "chan", none⟩

/-- Small document message in a public chat (pyrogram shape). -/
def msgDocP : PyMessage :=
  ⟨5, .document ⟨some 4096, some (str "report.pdf"), some (str "application/pdf")⟩,
    str "chan"⟩

/-- Oversized document message (bigger than the 50 MB default limit). -/
def msgBigT : TlMessage :=
  ⟨6, .document (some ⟨some 99999999, some (str "application/zip"), []⟩) false,
    str "chan", none⟩

/-- Oversized document message (pyrogram shape). -/
def msgBigP : PyMessage :=
  ⟨6, .document ⟨some 99999999, some (str "big.zip"), some (str "application/zip")⟩,
    str "chan"⟩

/-- Contact message (telethon shape). -/
def msgContactT : TlMessage := ⟨7, .contact, str "chan", none⟩

/-- Contact message (pyrogram shape). -/
def msgContactP : PyMessage := ⟨7, .contact, str "chan"⟩

-- ───────────────────────── claims C1, C2, C10 ─────────────────────────

/-- C1: whenever the effective size limit is positive and the approximate
media size strictly exceeds it, neither `download_media` variant invokes
the transport download call (the invoked flag is `false`), and the returned
method is "link" exactly when the chat username is non-empty (a public
reference link is derivable), else "none". -/
theorem c1_oversize_skips_download (cfgT cfgP : Cfg) (trT trP : Transport)
    (msgT : TlMessage) (msgP : PyMessage) (slT slP : Nat)
    (hT1 : 0 < (if slT ≠ 0 then slT else cfgT.maxDownloadSize))
    (hT2 : (getMediaMetaT msgT).2.1 > (if slT ≠ 0 then slT else cfgT.maxDownloadSize))
    (hP1 : 0 < (if slP ≠ 0 then slP else cfgP.maxDownloadSize))
    (hP2 : (getMediaMetaP msgP).2.1 > (if slP ≠ 0 then slP else cfgP.maxDownloadSize)) :
    (download_mediaT cfgT trT msgT slT).2 = false ∧
    (download_mediaT cfgT trT msgT slT).1.method =
      (if msgT.chatUsername ≠ [] then str "link" else str "none") ∧
    (download_mediaP cfgP trP msgP slP).2 = false ∧
    (download_mediaP cfgP trP msgP slP).1.method =
      (if msgP.chatUsername ≠ [] then str "link" else str "none") := by
  have hTt := getMediaMetaT_nonzero_not_terminal msgT (by omega)
  have hPt := getMediaMetaP_nonzero_not_terminal msgP (by omega)
  rcases hmetaT : getMediaMetaT msgT with ⟨mtT, approxT, nameT⟩
  rcases hmetaP : getMediaMetaP msgP with ⟨mtP, approxP, nameP, mimeP⟩
  rw [hmetaT] at hTt hT2
  rw [hmetaP] at hPt hP2
  dsimp only at hTt hT2 hPt hP2
  have hT : download_mediaT cfgT trT msgT slT =
      ({ mediaType := mtT, fileSize := approxT, fileName := nameT,
         publicLink := buildPublicLink msgT.chatUsername msgT.id,
         method := linkOrNone (buildPublicLink msgT.chatUsername msgT.id) }, false) := by
    unfold download_mediaT
    rw [hmetaT]
    dsimp only
    rw [if_neg hTt, if_pos ⟨by omega, hT2⟩]
  have hP : download_mediaP cfgP trP msgP slP =
      ({ mediaType := mtP, fileSize := approxP, fileName := nameP, mimeType := mimeP,
         publicLink := buildPublicLink msgP.chatUsername msgP.id,
         method := linkOrNone (buildPublicLink msgP.chatUsername msgP.id) }, false) := by
    unfold download_mediaP
    rw [hmetaP]
    dsimp only
    rw [if_neg hPt, if_pos ⟨by omega, hP2⟩]
  rw [hT, hP]
  exact ⟨rfl, linkOrNone_buildPublicLink _ _, rfl, linkOrNone_buildPublicLink _ _⟩

/-- C1 witness: a 99999999-byte document against the 50 MB default limit in
a public chat is skipped with method "link" on both variants. -/
theorem c1_oversize_skips_download_witness :
    (download_mediaT cfgFix trFix msgBigT 0).2 = false ∧
    (download_mediaT cfgFix trFix msgBigT 0).1.method =
      (if msgBigT.chatUsername ≠ [] then str "link" else str "none") ∧
    (download_mediaP cfgFix trFix msgBigP 0).2 = false ∧
    (download_mediaP cfgFix trFix msgBigP 0).1.method =
      (if msgBigP.chatUsername ≠ [] then str "link" else str "none") :=
  c1_oversize_skips_download cfgFix cfgFix trFix trFix msgBigT msgBigP 0 0
    (by decide) (by decide) (by decide) (by decide)

/-- C2: a message classified as empty or into the terminal non-downloadable
set {contact, location, poll, venue} gets method "none" from both
`download_media` variants, with no file path, no public link recorded, and
no transport download invoked; and `download_and_attach` (for every html
payload and every configured attach mode) still reports method "none". -/
theorem c2_terminal_always_none (cfgT cfgP : Cfg) (trT trP : Transport)
    (msgT : TlMessage) (msgP : PyMessage) (slT slP : Nat)
    (hT : (getMediaMetaT msgT).1 = [] ∨ (getMediaMetaT msgT).1 ∈ [str "contact",
        str "location", str "poll", str "venue"])
    (hP : (getMediaMetaP msgP).1 = [] ∨ (getMediaMetaP msgP).1 ∈ [str "contact",
        str "location", str "poll", str "venue"]) :
    (download_mediaT cfgT trT msgT slT).1.method = str "none" ∧
    (download_mediaT cfgT trT msgT slT).1.filePath = none ∧
    (download_mediaT cfgT trT msgT slT).1.publicLink = [] ∧
    (download_mediaT cfgT trT msgT slT).2 = false ∧
    (∀ html mode, (downloadAndAttachT cfgT trT msgT html mode).result.method = str "none") ∧
    (download_mediaP cfgP trP msgP slP).1.method = str "none" ∧
    (download_mediaP cfgP trP msgP slP).1.filePath = none ∧
    (download_mediaP cfgP trP msgP slP).1.publicLink = [] ∧
    (download_mediaP cfgP trP msgP slP).2 = false ∧
    (∀ html mode, (downloadAndAttachP cfgP trP msgP html mode).result.method = str "none") := by
  have hTc : (getMediaMetaT msgT).1 = [] ∨ (getMediaMetaT msgT).1 ∈ [str "contact",
      str "location", str "poll", str "venue", str "webpage"] := by
    rcases hT with h | h
    · exact Or.inl h
    · refine Or.inr ?_
      simp only [List.mem_cons, List.mem_singleton] at h ⊢
      tauto
  have h1 := dmT_terminal cfgT trT msgT slT hTc
  have h2 := dmT_terminal cfgT trT msgT 0 hTc
  have h3 := dmP_terminal cfgP trP msgP slP hP
  have h4 := dmP_terminal cfgP trP msgP 0 hP
  refine ⟨by rw [h1], by rw [h1], by rw [h1], by rw [h1], ?_,
    by rw [h3], by rw [h3], by rw [h3], by rw [h3], ?_⟩
  · intro html mode
    exact attachT_method_none cfgT trT msgT html mode (by rw [h2])
  · intro html mode
    exact attachP_method_none cfgP trP msgP html mode (by rw [h4])

/-- C2 witness: a contact message in a public chat, on both variants, with
the "both" attach mode. -/
theorem c2_terminal_always_none_witness :
    (download_mediaT cfgFix trFix msgContactT 0).1.method = str "none" ∧
    (download_mediaT cfgFix trFix msgContactT 0).1.publicLink = [] ∧
    (downloadAndAttachT cfgFix trFix msgContactT (str "hi") (str "both")).result.method =
      str "none" ∧
    (downloadAndAttachP cfgFix trFix msgContactP (str "hi") (str "both")).result.method =
      str "none" := by
  have h := c2_terminal_always_none cfgFix cfgFix trFix trFix msgContactT msgContactP 0 0
    (by decide) (by decide)
  exact ⟨h.1, h.2.2.1, h.2.2.2.2.1 (str "hi") (str "both"),
    h.2.2.2.2.2.2.2.2.2 (str "hi") (str "both")⟩

/-- C10: every `MediaResult` returned by either `download_media` variant is
internally coherent: method "both" implies a file path and a non-empty
public link; "file" implies a file path and an empty public link; "link"
implies a non-empty public link and no file path; "none" implies no file
path. -/
theorem c10_media_result_coherence (cfgT cfgP : Cfg) (trT trP : Transport)
    (msgT : TlMessage) (msgP : PyMessage) (slT slP : Nat) :
    ((download_mediaT cfgT trT msgT slT).1.method = str "both" →
      (download_mediaT cfgT trT msgT slT).1.filePath ≠ none ∧
      (download_mediaT cfgT trT msgT slT).1.publicLink ≠ []) ∧
    ((download_mediaT cfgT trT msgT slT).1.method = str "file" →
      (download_mediaT cfgT trT msgT slT).1.filePath ≠ none ∧
      (download_mediaT cfgT trT msgT slT).1.publicLink = []) ∧
    ((download_mediaT cfgT trT msgT slT).1.method = str "link" →
      (download_mediaT cfgT trT msgT slT).1.publicLink ≠ [] ∧
      (download_mediaT cfgT trT msgT slT).1.filePath = none) ∧
    ((download_mediaT cfgT trT msgT slT).1.method = str "none" →
      (download_mediaT cfgT trT msgT slT).1.filePath = none) ∧
    ((download_mediaP cfgP trP msgP slP).1.method = str "both" →
      (download_mediaP cfgP trP msgP slP).1.filePath ≠ none ∧
      (download_mediaP cfgP trP msgP slP).1.publicLink ≠ []) ∧
    ((download_mediaP cfgP trP msgP slP).1.method = str "file" →
      (download_mediaP cfgP trP msgP slP).1.filePath ≠ none ∧
      (download_mediaP cfgP trP msgP slP).1.publicLink = []) ∧
    ((download_mediaP cfgP trP msgP slP).1.method = str "link" →
      (download_mediaP cfgP trP msgP slP).1.publicLink ≠ [] ∧
      (download_mediaP cfgP trP msgP slP).1.filePath = none) ∧
    ((download_mediaP cfgP trP msgP slP).1.method = str "none" →
      (download_mediaP cfgP trP msgP slP).1.filePath = none) := by
  have hT := dmOk_of_shape _ (dmT_shape cfgT trT msgT slT)
  have hP := dmOk_of_shape _ (dmP_shape cfgP trP msgP slP)
  exact ⟨hT.1, hT.2.1, hT.2.2.1, hT.2.2.2, hP.1, hP.2.1, hP.2.2.1, hP.2.2.2⟩

/-- C10 witness: a successful public-chat download on the telethon variant
yields method "both", hence a file path and a non-empty public link. -/
theorem c10_media_result_coherence_witness :
    (download_mediaT cfgFix trFix msgDocT 0).1.filePath ≠ none ∧
    (download_mediaT cfgFix trFix msgDocT 0).1.publicLink ≠ [] :=
  (c10_media_result_coherence cfgFix cfgFix trFix trFix msgDocT msgDocP 0 0).1 (by decide)

-- ───────────────────────── entity extraction ─────────────────────────

/-- Decimal rendering of a (possibly negative) user id, as Python f-string
interpolation produces it. -/
def intStr (i : Int) : Str := (toString i).data

/-- Python slice `text[offset : offset + length]` (non-negative indices
clamp exactly like `drop`/`take`). -/
def sliceText (text : Str) (off len : Nat) : Str := (text.drop off).take len

/-- The eleven entity buckets; the invariant "no bucket key is ever
missing" is expressed by making them total fields. -/
structure EntityBuckets where
  urls : List Str := []
  hashtags : List Str := []
  mentions : List Str := []
  emails : List Str := []
  phones : List Str := []
  bold : List Str := []
  italic : List Str := []
  underline : List Str := []
  strikethrough : List Str := []
  code : List Str := []
  spoiler : List Str := []
deriving DecidableEq

/-- Bucket names, the values of `_ENTITY_MAP` / `_PYR_MAP`. -/
inductive BucketName
  | urls | hashtags | mentions | emails | phones
  | bold | italic | underline | strikethrough | code | spoiler
deriving DecidableEq

/-- `buckets[bucket].append(value)`. -/
def appendB (b : EntityBuckets) : BucketName → Str → EntityBuckets
  | .urls, v => { b with urls := b.urls ++ [v] }
  | .hashtags, v => { b with hashtags := b.hashtags ++ [v] }
  | .mentions, v => { b with mentions := b.mentions ++ [v] }
  | .emails, v => { b with emails := b.emails ++ [v] }
  | .phones, v => { b with phones := b.phones ++ [v] }
  | .bold, v => { b with bold := b.bold ++ [v] }
  | .italic, v => { b with italic := b.italic ++ [v] }
  | .underline, v => { b with underline := b.underline ++ [v] }
  | .strikethrough, v => { b with strikethrough := b.strikethrough ++ [v] }
  | .code, v => { b with code := b.code ++ [v] }
  | .spoiler, v => { b with spoiler := b.spoiler ++ [v] }

/-- Telethon `MessageEntity*` runtime classes. -/
inductive TlEntityKind
  | url | textUrl | hashtag | mention | mentionName | email | phone
  | bold | italic | underline | strike | code | pre | spoiler | unknown
deriving DecidableEq

/-- A telethon entity: its class, span, and the payload fields the code
reads (`url` of `MessageEntityTextUrl`, where the empty string is falsy,
and `user_id` of `MessageEntityMentionName`). -/
structure TlEntity where
  kind : TlEntityKind
  offset : Nat
  length : Nat
  url : Str
  userId : Int
deriving DecidableEq

/-- `_ENTITY_MAP` from parser_telethon.py. -/
def bucketOfTl : TlEntityKind → Option BucketName
  | .url => some .urls
  | .textUrl => some .urls
  | .hashtag => some .hashtags
  | .mention => some .mentions
  | .mentionName => some .mentions
  | .email => some .emails
  | .phone => some .phones
  | .bold => some .bold
  | .italic => some .italic
  | .underline => some .underline
  | .strike => some .strikethrough
  | .code => some .code
  | .pre => some .code
  | .spoiler => some .spoiler
  | .unknown => none

/-- The loop body of `_extract_entities` (parser_telethon.py). -/
def tlStep (text : Str) (b : EntityBuckets) (ent : TlEntity) : EntityBuckets :=
  match bucketOfTl ent.kind with
  | none => b
  | some bucket =>
    if ent.kind = .textUrl then
      appendB b .urls
        (if ent.url ≠ [] then ent.url else sliceText text ent.offset ent.length)
    else if ent.kind = .mentionName then
      appendB b .mentions (str "id:" ++ intStr ent.userId)
    else
      appendB b bucket (sliceText text ent.offset ent.length)

/-- `_extract_entities(text, entities)` from parser_telethon.py. -/
def extractEntitiesT (text : Str) (entities : List TlEntity) : EntityBuckets :=
  if entities = [] ∨ text = [] then {} else entities.foldl (tlStep text) {}

/-- Pyrogram `MessageEntityType` values. -/
inductive PyEntityType
  | url | textLink | hashtag | mention | textMention | email | phoneNumber
  | bold | italic | underline | strikethrough | code | pre | spoiler | unknown
deriving DecidableEq

/-- The user object attached to a pyrogram `TEXT_MENTION` entity; the
`or ''` fallbacks on the name parts are pre-applied. -/
structure PyUser where
  id : Int
  firstName : Str
  lastName : Str
deriving DecidableEq

/-- A pyrogram entity. -/
structure PyEntity where
  etype : PyEntityType
  offset : Nat
  length : Nat
  url : Option Str
  user : Option PyUser
deriving DecidableEq

/-- `_PYR_MAP` from parser_pyrogram.py. -/
def bucketOfPy : PyEntityType → Option BucketName
  | .url => some .urls
  | .textLink => some .urls
  | .hashtag => some .hashtags
  | .mention => some .mentions
  | .textMention => some .mentions
  | .email => some .emails
  | .phoneNumber => some .phones
  | .bold => some .bold
  | .italic => some .italic
  | .underline => some .underline
  | .strikethrough => some .strikethrough
  | .code => some .code
  | .pre => some .code
  | .spoiler => some .spoiler
  | .unknown => none

/-- `f"{user.first_name or ''} {user.last_name or ''}".strip()` with the
`name or f"id:{user.id}"` fallback. -/
def mentionDisplay (u : PyUser) : Str :=
  if stripStr (u.firstName ++ str " " ++ u.lastName) ≠ []
  then stripStr (u.firstName ++ str " " ++ u.lastName)
  else str "id:" ++ intStr u.id

/-- The loop body of `_extract_entities_pyrogram` (parser_pyrogram.py).
A `TEXT_MENTION` without a user object falls through to the generic branch
and contributes the sliced fragment. -/
def pyStep (text : Str) (b : EntityBuckets) (ent : PyEntity) : EntityBuckets :=
  match bucketOfPy ent.etype with
  | none => b
  | some bucket =>
    if ent.etype = .textLink then
      appendB b .urls
        (match ent.url with
         | some u => if u ≠ [] then u else sliceText text ent.offset ent.length
         | none => sliceText text ent.offset ent.length)
    else
      match ent.etype, ent.user with
      | .textMention, some u => appendB b .mentions (mentionDisplay u)
      | _, _ => appendB b bucket (sliceText text ent.offset ent.length)

/-- `_extract_entities_pyrogram(text, entities)` from parser_pyrogram.py. -/
def extractEntitiesPy (text : Str) (entities : List PyEntity) : EntityBuckets :=
  if entities = [] ∨ text = [] then {} else entities.foldl (pyStep text) {}

lemma extractEntitiesT_eq_foldl {text : Str} (h : text ≠ []) (ents : List TlEntity) :
    extractEntitiesT text ents = ents.foldl (tlStep text) {} := by
  unfold extractEntitiesT
  cases ents with
  | nil => simp
  | cons e es => simp [h]

lemma extractEntitiesPy_eq_foldl {text : Str} (h : text ≠ []) (ents : List PyEntity) :
    extractEntitiesPy text ents = ents.foldl (pyStep text) {} := by
  unfold extractEntitiesPy
  cases ents with
  | nil => simp
  | cons e es => simp [h]

/-- C8: on a non-empty text, a pyrogram mention-by-identity annotation
carrying a user contributes the user's display name (with the
`id:<identifier>` fallback exactly when no name is available), a text-link
annotation with a non-empty URL payload contributes that URL verbatim, and
the telethon extractor contributes `id:<user_id>` for its
mention-by-identity annotations (which carry no name) and the URL payload
verbatim for its text-link annotations. -/
theorem c8_payload_contributions (text : Str) (entsP : List PyEntity)
    (entsT : List TlEntity) (offP lenP offL lenL offT lenT offU lenU : Nat)
    (u : PyUser) (v : Str) (uid : Int)
    (htext : text ≠ []) (hv : v ≠ []) :
    (extractEntitiesPy text (entsP ++ [⟨.textMention, offP, lenP, none, some u⟩])).mentions =
      (extractEntitiesPy text entsP).mentions ++ [mentionDisplay u] ∧
    (extractEntitiesPy text (entsP ++ [⟨.textLink, offL, lenL, some v, none⟩])).urls =
      (extractEntitiesPy text entsP).urls ++ [v] ∧
    (extractEntitiesT text (entsT ++ [⟨.mentionName, offT, lenT, [], uid⟩])).mentions =
      (extractEntitiesT text entsT).mentions ++ [str "id:" ++ intStr uid] ∧
    (extractEntitiesT text (entsT ++ [⟨.textUrl, offU, lenU, v, 0⟩])).urls =
      (extractEntitiesT text entsT).urls ++ [v] := by
  refine ⟨?_, ?_, ?_, ?_⟩
  · rw [extractEntitiesPy_eq_foldl htext, extractEntitiesPy_eq_foldl htext,
      List.foldl_append]
    rfl
  · rw [extractEntitiesPy_eq_foldl htext, extractEntitiesPy_eq_foldl htext,
      List.foldl_append]
    show (appendB _ .urls (if v ≠ [] then v else _)).urls = _
    rw [if_pos hv]
    rfl
  · rw [extractEntitiesT_eq_foldl htext, extractEntitiesT_eq_foldl htext,
      List.foldl_append]
    rfl
  · rw [extractEntitiesT_eq_foldl htext, extractEntitiesT_eq_foldl htext,
      List.foldl_append]
    show (appendB _ .urls (if v ≠ [] then v else _)).urls = _
    rw [if_pos hv]
    rfl

/-- C8 witness: a text mention of Pavel Durov contributes the display name
"Pavel Durov", not the id fallback. -/
theorem c8_payload_contributions_witness :
    (extractEntitiesPy (str "Check")
        [⟨.textMention, 0, 5, none, some ⟨42, str "Pavel", str "Durov"⟩⟩]).mentions =
      [str "Pavel Durov"] := by
  have h := c8_payload_contributions (str "Check") [] [] 0 5 0 5 0 5 0 5
    ⟨42, str "Pavel", str "Durov"⟩ (str "https://x.co") 99 (by decide) (by decide)
  exact h.1.trans (by decide)

-- ───────────────────────── claims C5 and C9 ─────────────────────────

lemma s_file_ne_link : ¬((str "file" : Str) = str "link") := by decide

lemma s_file_ne_both : ¬((str "file" : Str) = str "both") := by decide

lemma s_auto_ne_file : ¬((str "auto" : Str) = str "file") := by decide

lemma s_auto_ne_link : ¬((str "auto" : Str) = str "link") := by decide

lemma s_auto_ne_both : ¬((str "auto" : Str) = str "both") := by decide

lemma s_both_ne_file : ¬((str "both" : Str) = str "file") := by decide

lemma s_both_ne_link : ¬((str "both" : Str) = str "link") := by decide

/-- Transport oracle where the attachment send and every text send fail. -/
def trFail : Transport :=
  ⟨.ret (str "downloads/report.pdf"), 2048, some (str "application/pdf"), 12, false,
    fun _ => false, str "boom"⟩

/-- Transport oracle where only the attachment send fails. -/
def trFileFail : Transport :=
  ⟨.ret (str "downloads/report.pdf"), 2048, some (str "application/pdf"), 12, false,
    fun _ => true, str "boom"⟩

/-- C5 counterexample: when the attachment send fails and the fallback text
send also fails, the destination chat receives nothing at all (no text
summary), and the double failure is swallowed rather than propagated — the
inner `except: pass` discards it. -/
theorem c5_total_failure_counterexample :
    (downloadAndAttachT cfgFix trFail msgDocT (str "hello") (str "auto")).sent = [] ∧
    (downloadAndAttachT cfgFix trFail msgDocT (str "hello") (str "auto")).raised = none ∧
    (downloadAndAttachP cfgFix trFail msgDocP (str "hello") (str "auto")).sent = [] ∧
    (downloadAndAttachP cfgFix trFail msgDocP (str "hello") (str "auto")).raised = none := by
  refine ⟨?_, ?_, ?_, ?_⟩ <;> decide

/-- C5 (amended): for a non-album message whose download produced a file,
under attach modes "file" / "auto" / "both", a failure while sending the
attachment triggers a fallback that attempts the plain text summary without
attachment, records the send error on the `MediaResult`, and does not raise
to the caller; the destination chat receives the text summary exactly when
that fallback text send succeeds — when the fallback also fails nothing is
delivered and the failure is swallowed rather than propagated. -/
theorem c5_send_failure_fallback (cfgT cfgP : Cfg) (trT trP : Transport)
    (msgT : TlMessage) (msgP : PyMessage) (htmlT htmlP amT amP pT pP : Str)
    (hgT : msgT.groupedId = none)
    (hfT : (download_mediaT cfgT trT msgT 0).1.filePath = some pT)
    (hmT : effectiveMode cfgT amT = str "file" ∨ effectiveMode cfgT amT = str "auto" ∨
      effectiveMode cfgT amT = str "both")
    (hsT : trT.sendFileOk = false)
    (hfP : (download_mediaP cfgP trP msgP 0).1.filePath = some pP)
    (hmP : effectiveMode cfgP amP = str "file" ∨ effectiveMode cfgP amP = str "auto" ∨
      effectiveMode cfgP amP = str "both")
    (hsP : trP.sendFileOk = false) :
    (downloadAndAttachT cfgT trT msgT htmlT amT).raised = none ∧
    (downloadAndAttachT cfgT trT msgT htmlT amT).result.error = trT.sendErr ∧
    (downloadAndAttachT cfgT trT msgT htmlT amT).sent =
      (if trT.sendTextOk htmlT = true then [SentItem.text htmlT] else []) ∧
    (downloadAndAttachP cfgP trP msgP htmlP amP).raised = none ∧
    (downloadAndAttachP cfgP trP msgP htmlP amP).result.error = trP.sendErr ∧
    (downloadAndAttachP cfgP trP msgP htmlP amP).sent =
      (if trP.sendTextOk htmlP = true then [SentItem.text htmlP] else []) := by
  have hT : downloadAndAttachT cfgT trT msgT htmlT amT =
      (if trT.sendTextOk htmlT = true then
        ⟨{ (download_mediaT cfgT trT msgT 0).1 with error := trT.sendErr },
          [.text htmlT], none⟩
       else
        ⟨{ (download_mediaT cfgT trT msgT 0).1 with error := trT.sendErr }, [], none⟩) := by
    unfold downloadAndAttachT
    dsimp only
    rw [if_neg (by simp [hgT])]
    rw [if_neg (method_of_filePath (dmT_shape cfgT trT msgT 0) hfT).1]
    rcases hmT with hm | hm | hm <;> rw [hm] <;>
      simp [hfT, hsT, s_file_ne_link, s_file_ne_both, s_auto_ne_file, s_auto_ne_link,
        s_auto_ne_both, s_both_ne_file, s_both_ne_link]
  have hP : downloadAndAttachP cfgP trP msgP htmlP amP =
      (if trP.sendTextOk htmlP = true then
        ⟨{ (download_mediaP cfgP trP msgP 0).1 with error := trP.sendErr },
          [.text htmlP], none⟩
       else
        ⟨{ (download_mediaP cfgP trP msgP 0).1 with error := trP.sendErr }, [], none⟩) := by
    unfold downloadAndAttachP
    dsimp only
    rw [if_neg (method_of_filePath (dmP_shape cfgP trP msgP 0) hfP).1]
    rcases hmP with hm | hm | hm <;> rw [hm] <;>
      simp [hfP, hsP, s_file_ne_link, s_file_ne_both, s_auto_ne_file, s_auto_ne_link,
        s_auto_ne_both, s_both_ne_file, s_both_ne_link]
  by_cases hst : trT.sendTextOk htmlT = true <;> by_cases hsp : trP.sendTextOk htmlP = true <;>
    rw [hT, hP] <;> simp [hst, hsp]

/-- C5 witness: attachment send fails, fallback text send succeeds — the
chat gets the text summary and the error is recorded without raising. -/
theorem c5_send_failure_fallback_witness :
    (downloadAndAttachT cfgFix trFileFail msgDocT (str "hello") (str "auto")).raised = none ∧
    (downloadAndAttachT cfgFix trFileFail msgDocT (str "hello") (str "auto")).result.error =
      trFileFail.sendErr ∧
    (downloadAndAttachT cfgFix trFileFail msgDocT (str "hello") (str "auto")).sent =
      (if trFileFail.sendTextOk (str "hello") = true then [SentItem.text (str "hello")]
       else []) := by
  have h := c5_send_failure_fallback cfgFix cfgFix trFileFail trFileFail msgDocT msgDocP
    (str "hello") (str "hello") (str "auto") (str "auto")
    (str "downloads/report.pdf") (str "downloads/report.pdf")
    (by decide) (by decide) (Or.inr (Or.inl (by decide))) (by decide)
    (by decide) (Or.inr (Or.inl (by decide))) (by decide)
  exact ⟨h.1, h.2.1, h.2.2.1⟩

/-- C9 counterexample: in "both" mode with a successful download and a
derivable public link, the sent caption carries the link line *twice* (the
mode-dispatch block appends it and the send call appends it again), so it
is not the truncated text followed by exactly one link line. -/
theorem c9_double_link_counterexample :
    (downloadAndAttachT cfgFix trFix msgDocT (str "hi") (str "both")).sent =
      [SentItem.file (truncCaption (str "hi") ++ linkLine (str "https://t.me/chan/5") ++
        linkLine (str "https://t.me/chan/5"))] ∧
    truncCaption (str "hi") ++ linkLine (str "https://t.me/chan/5") ++
        linkLine (str "https://t.me/chan/5") ≠
      truncCaption (str "hi") ++ linkLine (str "https://t.me/chan/5") := by
  constructor
  · decide
  · decide

/-- C9 (amended): with attach mode "both", a successful download and send,
and a derivable public link, the returned method is "both" and the sent
caption is the summary text truncated to at most 900 characters (ellipsis
appended exactly when longer, inside `truncCaption`) followed by the link
line appended twice — once by the "both" mode-dispatch branch and once
again at the send call — in both client variants. -/
theorem c9_both_mode_caption (cfgT cfgP : Cfg) (trT trP : Transport)
    (msgT : TlMessage) (msgP : PyMessage) (htmlT htmlP amT amP pT pP : Str)
    (hgT : msgT.groupedId = none)
    (hfT : (download_mediaT cfgT trT msgT 0).1.filePath = some pT)
    (hlT : (download_mediaT cfgT trT msgT 0).1.publicLink ≠ [])
    (hmT : effectiveMode cfgT amT = str "both")
    (hsT : trT.sendFileOk = true)
    (hfP : (download_mediaP cfgP trP msgP 0).1.filePath = some pP)
    (hlP : (download_mediaP cfgP trP msgP 0).1.publicLink ≠ [])
    (hmP : effectiveMode cfgP amP = str "both")
    (hsP : trP.sendFileOk = true) :
    (downloadAndAttachT cfgT trT msgT htmlT amT).result.method = str "both" ∧
    (downloadAndAttachT cfgT trT msgT htmlT amT).sent =
      [SentItem.file (truncCaption htmlT ++
        linkLine ((download_mediaT cfgT trT msgT 0).1.publicLink) ++
        linkLine ((download_mediaT cfgT trT msgT 0).1.publicLink))] ∧
    (downloadAndAttachT cfgT trT msgT htmlT amT).raised = none ∧
    (downloadAndAttachP cfgP trP msgP htmlP amP).result.method = str "both" ∧
    (downloadAndAttachP cfgP trP msgP htmlP amP).sent =
      [SentItem.file (truncCaption htmlP ++
        linkLine ((download_mediaP cfgP trP msgP 0).1.publicLink) ++
        linkLine ((download_mediaP cfgP trP msgP 0).1.publicLink))] ∧
    (downloadAndAttachP cfgP trP msgP htmlP amP).raised = none := by
  have hT : downloadAndAttachT cfgT trT msgT htmlT amT =
      ⟨{ (download_mediaT cfgT trT msgT 0).1 with method := str "both" },
        [.file (truncCaption htmlT ++
          linkLine ((download_mediaT cfgT trT msgT 0).1.publicLink) ++
          linkLine ((download_mediaT cfgT trT msgT 0).1.publicLink))], none⟩ := by
    unfold downloadAndAttachT
    dsimp only
    rw [if_neg (by simp [hgT])]
    rw [if_neg (method_of_filePath (dmT_shape cfgT trT msgT 0) hfT).1]
    rw [hmT]
    simp [hfT, hsT, hlT, s_both_ne_file, s_both_ne_link]
  have hP : downloadAndAttachP cfgP trP msgP htmlP amP =
      ⟨{ (download_mediaP cfgP trP msgP 0).1 with method := str "both" },
        [.file (truncCaption htmlP ++
          linkLine ((download_mediaP cfgP trP msgP 0).1.publicLink) ++
          linkLine ((download_mediaP cfgP trP msgP 0).1.publicLink))], none⟩ := by
    unfold downloadAndAttachP
    dsimp only
    rw [if_neg (method_of_filePath (dmP_shape cfgP trP msgP 0) hfP).1]
    rw [hmP]
    simp [hfP, hsP, hlP, s_both_ne_file, s_both_ne_link]
  rw [hT, hP]
  exact ⟨rfl, rfl, rfl, rfl, rfl, rfl⟩

/-- C9 witness: the concrete "both"-mode run of the counterexample,
obtained through the amended theorem. -/
theorem c9_both_mode_caption_witness :
    (downloadAndAttachT cfgFix trFix msgDocT (str "hi") (str "both")).result.method =
      str "both" ∧
    (downloadAndAttachT cfgFix trFix msgDocT (str "hi") (str "both")).sent =
      [SentItem.file (truncCaption (str "hi") ++
        linkLine ((download_mediaT cfgFix trFix msgDocT 0).1.publicLink) ++
        linkLine ((download_mediaT cfgFix trFix msgDocT 0).1.publicLink))] := by
  have h := c9_both_mode_caption cfgFix cfgFix trFix trFix msgDocT msgDocP
    (str "hi") (str "hi") (str "both") (str "both")
    (str "downloads/report.pdf") (str "downloads/report.pdf")
    (by decide) (by decide) (by decide) (by decide) (by decide)
    (by decide) (by decide) (by decide) (by decide)
  exact ⟨h.1, h.2.1⟩

end TgParser
